import Mathlib

/-!
Verification of the grid-generator single-page application (src/src/App.tsx).

The component state and its event handlers are embedded shallowly: the React
state hooks become fields of `AppState`, each handler becomes a state
transformer, and the two code generators become pure functions of the state.
JS numbers holding cell coordinates and configuration values are modelled as
`Int`; JS strings as `String`.
-/

/-- Grid configuration record (interface GridConfig, App.tsx lines 4-9). -/
structure GridConfig where
  columns : Int
  rows : Int
  columnGap : Int
  rowGap : Int
deriving DecidableEq

/-- A committed rectangular area (interface GridArea, App.tsx lines 11-18).
Row and column bounds are CSS grid line numbers; the end bounds are exclusive. -/
structure GridArea where
  id : String
  rowStart : Int
  rowEnd : Int
  colStart : Int
  colEnd : Int
  color : String
deriving DecidableEq

/-- A grid cell coordinate, as passed to the mouse handlers. -/
structure Cell where
  row : Int
  col : Int
deriving DecidableEq

/-- Preview palette (AREA_COLORS, App.tsx lines 20-29). -/
def AREA_COLORS : List String :=
  [ "bg-gradient-to-br from-blue-500 to-blue-600"
  , "bg-gradient-to-br from-emerald-500 to-emerald-600"
  , "bg-gradient-to-br from-amber-500 to-amber-600"
  , "bg-gradient-to-br from-rose-500 to-rose-600"
  , "bg-gradient-to-br from-violet-500 to-violet-600"
  , "bg-gradient-to-br from-pink-500 to-pink-600"
  , "bg-gradient-to-br from-teal-500 to-teal-600"
  , "bg-gradient-to-br from-orange-500 to-orange-600" ]

/-- Secondary palette of literal gradients (CSS_COLORS, App.tsx lines 31-40). -/
def CSS_COLORS : List String :=
  [ "linear-gradient(135deg, #3B82F6, #2563EB)"
  , "linear-gradient(135deg, #10B981, #059669)"
  , "linear-gradient(135deg, #F59E0B, #D97706)"
  , "linear-gradient(135deg, #F43F5E, #E11D48)"
  , "linear-gradient(135deg, #8B5CF6, #7C3AED)"
  , "linear-gradient(135deg, #EC4899, #DB2777)"
  , "linear-gradient(135deg, #14B8A6, #0D9488)"
  , "linear-gradient(135deg, #F97316, #EA580C)" ]

/-- The component state: one field per useState hook (App.tsx lines 43-54). -/
structure AppState where
  gridConfig : GridConfig
  gridAreas : List GridArea
  isDragging : Bool
  startCell : Option Cell
  currentCell : Option Cell
  showTailwind : Bool
deriving DecidableEq

/-- Initial state of the component (the useState initialisers). -/
def initialState : AppState :=
  { gridConfig := { columns := 4, rows := 3, columnGap := 4, rowGap := 4 }
  , gridAreas := []
  , isDragging := false
  , startCell := none
  , currentCell := none
  , showTailwind := true }

/-- Model of JS Array.prototype.join with a separator: the empty list joins
to the empty string, otherwise the separator is interposed between entries. -/
def joinSep (sep : String) : List String → String
  | [] => ""
  | a :: rest => rest.foldl (fun acc b => acc ++ sep ++ b) a

/-- Model of JS Array.prototype.map when the callback also uses the element
index; the first argument of the callback receives the running index. -/
def mapWithIndex (f : Nat → α → β) : Nat → List α → List β
  | _, [] => []
  | i, a :: rest => f i a :: mapWithIndex f (i + 1) rest

/-- Decimal rendering of n / 4 for a natural n, as JS prints n * 0.25. -/
def quarterNatString (n : Nat) : String :=
  let q := n / 4
  match n % 4 with
  | 0 => toString q
  | 1 => toString q ++ ".25"
  | 2 => toString q ++ ".5"
  | _ => toString q ++ ".75"

/-- Decimal rendering of n * 0.25 as JS string interpolation prints it
(exact for the integer magnitudes a number form produces). -/
def quarterRem (n : Int) : String :=
  if n < 0 then "-" ++ quarterNatString (-n).toNat else quarterNatString n.toNat

/-- The Tailwind generator (generateTailwindCode, App.tsx lines 56-77).
The parent class list reads columnGap for its gap token. -/
def generateTailwindCode (s : AppState) : String :=
  let parentClasses := joinSep " "
    [ "grid"
    , "grid-cols-" ++ toString s.gridConfig.columns
    , "grid-rows-" ++ toString s.gridConfig.rows
    , "gap-" ++ toString s.gridConfig.columnGap ]
  let gridItems := s.gridAreas.map (fun area =>
    let classes := joinSep " "
      [ "row-start-" ++ toString area.rowStart
      , "row-span-" ++ toString (area.rowEnd - area.rowStart)
      , "col-start-" ++ toString area.colStart
      , "col-span-" ++ toString (area.colEnd - area.colStart)
      , area.color
      , "rounded-xl shadow-lg" ]
    "  <div class=\"" ++ classes ++ "\"></div>")
  "<div class=\"" ++ parentClasses ++ "\">\n" ++ joinSep "\n" gridItems ++ "\n</div>"

/-- The pair of strings returned by the CSS generator. -/
structure CSSOutput where
  css : String
  html : String
deriving DecidableEq

/-- The CSS generator (generateCSSCode, App.tsx lines 79-104).
The container gap reads rowGap; each rule takes its gradient from
CSS_COLORS at the rule index modulo the palette length. -/
def generateCSSCode (s : AppState) : CSSOutput :=
  let parentStyles :=
    [ "display: grid;"
    , "grid-template-columns: repeat(" ++ toString s.gridConfig.columns ++ ", 1fr);"
    , "grid-template-rows: repeat(" ++ toString s.gridConfig.rows ++ ", 1fr);"
    , "gap: " ++ quarterRem s.gridConfig.rowGap ++ "rem;" ]
  let cssRules := joinSep "\n" (mapWithIndex (fun index area =>
    "\n.grid-area-" ++ toString (index + 1) ++ " \x7b\n  grid-row: "
      ++ toString area.rowStart ++ " / " ++ toString area.rowEnd
      ++ ";\n  grid-column: " ++ toString area.colStart ++ " / " ++ toString area.colEnd
      ++ ";\n  background: " ++ CSS_COLORS.getD (index % CSS_COLORS.length) ""
      ++ ";\n  border-radius: 0.75rem;\n  box-shadow: 0 10px 15px -3px rgb(0 0 0 / 0.1);\n\x7d")
    0 s.gridAreas)
  let htmlCode := joinSep "\n" (mapWithIndex (fun index _ =>
    "  <div class=\"grid-area-" ++ toString (index + 1) ++ "\"></div>") 0 s.gridAreas)
  { css := ".grid-container \x7b\n  " ++ joinSep "\n  " parentStyles ++ "\n\x7d\n" ++ cssRules
  , html := "<div class=\"grid-container\">\n" ++ htmlCode ++ "\n</div>" }

/-- Pointer-down handler (handleMouseDown, App.tsx lines 110-114). -/
def handleMouseDown (row col : Int) (s : AppState) : AppState :=
  { s with isDragging := true
         , startCell := some { row := row, col := col }
         , currentCell := some { row := row, col := col } }

/-- Pointer-enter-cell handler (handleMouseEnter, App.tsx lines 116-120). -/
def handleMouseEnter (row col : Int) (s : AppState) : AppState :=
  if s.isDragging then { s with currentCell := some { row := row, col := col } } else s

/-- Release handler (handleMouseUp, App.tsx lines 122-144).  The id comes
from Date.now() in the source; the wall-clock value is passed in as `now`. -/
def handleMouseUp (now : Nat) (s : AppState) : AppState :=
  match s.isDragging, s.startCell, s.currentCell with
  | true, some startC, some currentC =>
      { s with
        gridAreas := s.gridAreas ++
          [ { id := "area-" ++ toString now
            , rowStart := min startC.row currentC.row
            , rowEnd := max startC.row currentC.row + 1
            , colStart := min startC.col currentC.col
            , colEnd := max startC.col currentC.col + 1
            , color := AREA_COLORS.getD (s.gridAreas.length % AREA_COLORS.length) "" } ]
      , isDragging := false
      , startCell := none
      , currentCell := none }
  | _, _, _ => { s with isDragging := false, startCell := none, currentCell := none }

/-- Selection preview predicate (isInSelection, App.tsx lines 146-155):
inclusive min/max rectangle between start and current cell. -/
def isInSelection (s : AppState) (row col : Int) : Bool :=
  match s.isDragging, s.startCell, s.currentCell with
  | true, some startC, some currentC =>
      decide (row ≥ min startC.row currentC.row ∧ row ≤ max startC.row currentC.row
        ∧ col ≥ min startC.col currentC.col ∧ col ≤ max startC.col currentC.col)
  | _, _, _ => false

/-- Model of JS parseInt on the value string of a number form field:
optional leading spaces and sign, then leading decimal digits; none when no
digit is found (parseInt returns NaN there). -/
def parseIntJS (v : String) : Option Int :=
  let cs := v.toList.dropWhile (fun c => c = ' ')
  match cs with
  | '-' :: rest =>
      let ds := rest.takeWhile Char.isDigit
      if ds.isEmpty then none
      else some (-(ds.foldl (fun acc c => acc * 10 + (c.toNat - 48)) 0 : Nat))
  | '+' :: rest =>
      let ds := rest.takeWhile Char.isDigit
      if ds.isEmpty then none
      else some ((ds.foldl (fun acc c => acc * 10 + (c.toNat - 48)) 0 : Nat))
  | other =>
      let ds := other.takeWhile Char.isDigit
      if ds.isEmpty then none
      else some ((ds.foldl (fun acc c => acc * 10 + (c.toNat - 48)) 0 : Nat))

/-- Model of the JS expression x || d on numbers: NaN and 0 are falsy. -/
def jsOrElse (o : Option Int) (d : Int) : Int :=
  match o with
  | none => d
  | some n => if n = 0 then d else n

/-- onChange of the Columns field (App.tsx line 257): parseInt(v) || 1. -/
def setColumnsInput (v : String) (s : AppState) : AppState :=
  { s with gridConfig := { s.gridConfig with columns := jsOrElse (parseIntJS v) 1 } }

/-- onChange of the Rows field (App.tsx line 270): parseInt(v) || 1. -/
def setRowsInput (v : String) (s : AppState) : AppState :=
  { s with gridConfig := { s.gridConfig with rows := jsOrElse (parseIntJS v) 1 } }

/-- onChange of the Column Gap field (App.tsx line 283): parseInt(v) || 0. -/
def setColumnGapInput (v : String) (s : AppState) : AppState :=
  { s with gridConfig := { s.gridConfig with columnGap := jsOrElse (parseIntJS v) 0 } }

/-- onChange of the Row Gap field (App.tsx line 296): parseInt(v) || 0. -/
def setRowGapInput (v : String) (s : AppState) : AppState :=
  { s with gridConfig := { s.gridConfig with rowGap := jsOrElse (parseIntJS v) 0 } }

/-- The reset button (App.tsx line 323): setGridAreas([]). -/
def resetGridAreas (s : AppState) : AppState :=
  { s with gridAreas := [] }

/-- The output-mode selector (App.tsx line 341). -/
def setSyntaxChoice (v : String) (s : AppState) : AppState :=
  { s with showTailwind := v == "tailwind" }

/-- The user events the component reacts to.  mouseLeave carries a clock
value because the root element wires onMouseLeave to the same release
handler (App.tsx line 226), which may commit an area with a Date.now() id. -/
inductive Event where
  | mouseDown (row col : Int)
  | mouseEnter (row col : Int)
  | mouseUp (now : Nat)
  | mouseLeave (now : Nat)
  | reset
  | setColumns (v : String)
  | setRows (v : String)
  | setColumnGap (v : String)
  | setRowGap (v : String)
  | selectSyntax (v : String)

/-- Dispatch of one event to its handler.  onMouseUp and onMouseLeave are
both wired to handleMouseUp on the root element (App.tsx lines 225-226). -/
def stepEvent (e : Event) (s : AppState) : AppState :=
  match e with
  | .mouseDown row col => handleMouseDown row col s
  | .mouseEnter row col => handleMouseEnter row col s
  | .mouseUp now => handleMouseUp now s
  | .mouseLeave now => handleMouseUp now s
  | .reset => resetGridAreas s
  | .setColumns v => setColumnsInput v s
  | .setRows v => setRowsInput v s
  | .setColumnGap v => setColumnGapInput v s
  | .setRowGap v => setRowGapInput v s
  | .selectSyntax v => setSyntaxChoice v s

/-- Run a sequence of events from a state. -/
def runEvents : List Event → AppState → AppState
  | [], s => s
  | e :: rest, s => runEvents rest (stepEvent e s)

/-- One full drag gesture: press on the start cell, move to the current
cell, release.  This is the only way the UI commits an area. -/
def commitGesture (sr sc cr cc : Int) (now : Nat) (s : AppState) : AppState :=
  handleMouseUp now (handleMouseEnter cr cc (handleMouseDown sr sc s))

/-- Run a sequence of full drag gestures (start cell, current cell, clock). -/
def runCommits : List (Cell × Cell × Nat) → AppState → AppState
  | [], s => s
  | g :: rest, s => runCommits rest (commitGesture g.1.row g.1.col g.2.1.row g.2.1.col g.2.2 s)

/-- The primary-syntax parent line as the spec renders it:
grid grid-cols-C grid-rows-R gap-G with G the column gap. -/
def specPrimaryParentLine (cfg : GridConfig) : String :=
  "grid grid-cols-" ++ toString cfg.columns ++ " grid-rows-" ++ toString cfg.rows
    ++ " gap-" ++ toString cfg.columnGap

/-- The primary-syntax child line as the spec renders it: row start and span,
column start and span, the stored color token, then fixed decorations. -/
def specPrimaryChildLine (area : GridArea) : String :=
  "row-start-" ++ toString area.rowStart
    ++ " row-span-" ++ toString (area.rowEnd - area.rowStart)
    ++ " col-start-" ++ toString area.colStart
    ++ " col-span-" ++ toString (area.colEnd - area.colStart)
    ++ " " ++ area.color ++ " rounded-xl shadow-lg"

/-- The secondary-syntax container rule as the spec renders it; its gap is
rowGap * 0.25 in rem units. -/
def specContainerRule (cfg : GridConfig) : String :=
  ".grid-container \x7b\n  display: grid;\n  grid-template-columns: repeat("
    ++ toString cfg.columns ++ ", 1fr);\n  grid-template-rows: repeat("
    ++ toString cfg.rows ++ ", 1fr);\n  gap: " ++ quarterRem cfg.rowGap ++ "rem;\n\x7d"

/-- The secondary-syntax rule for the area at a 0-indexed registry position:
named by the 1-indexed position, line ranges from the area bounds, gradient
taken from the secondary palette at the position modulo the palette size. -/
def specAreaRule (index : Nat) (area : GridArea) : String :=
  "\n.grid-area-" ++ toString (index + 1) ++ " \x7b\n  grid-row: "
    ++ toString area.rowStart ++ " / " ++ toString area.rowEnd
    ++ ";\n  grid-column: " ++ toString area.colStart ++ " / " ++ toString area.colEnd
    ++ ";\n  background: " ++ CSS_COLORS.getD (index % CSS_COLORS.length) ""
    ++ ";\n  border-radius: 0.75rem;\n  box-shadow: 0 10px 15px -3px rgb(0 0 0 / 0.1);\n\x7d"

/-- Area-registry invariant: every stored rectangle has positive extent. -/
def areaInv (s : AppState) : Prop :=
  ∀ a ∈ s.gridAreas, a.rowStart < a.rowEnd ∧ a.colStart < a.colEnd

/-- Color invariant: the area at registry position N carries the preview
palette entry at N modulo the palette size. -/
def colorInv (s : AppState) : Prop :=
  ∀ (N : Nat) (a : GridArea), s.gridAreas[N]? = some a →
    a.color = AREA_COLORS.getD (N % AREA_COLORS.length) ""

/-! ### Helper lemmas -/

theorem parentClasses_eq (cfg : GridConfig) :
    joinSep " "
      [ "grid"
      , "grid-cols-" ++ toString cfg.columns
      , "grid-rows-" ++ toString cfg.rows
      , "gap-" ++ toString cfg.columnGap ]
      = specPrimaryParentLine cfg := by
  apply String.ext
  simp only [specPrimaryParentLine, joinSep, List.foldl, String.data_append, List.append_assoc]
  rfl

theorem childClasses_eq (area : GridArea) :
    joinSep " "
      [ "row-start-" ++ toString area.rowStart
      , "row-span-" ++ toString (area.rowEnd - area.rowStart)
      , "col-start-" ++ toString area.colStart
      , "col-span-" ++ toString (area.colEnd - area.colStart)
      , area.color
      , "rounded-xl shadow-lg" ]
      = specPrimaryChildLine area := by
  apply String.ext
  simp only [specPrimaryChildLine, joinSep, List.foldl, String.data_append, List.append_assoc]
  rfl

theorem containerCss_eq (cfg : GridConfig) (tl : String) :
    ".grid-container \x7b\n  " ++ joinSep "\n  "
      [ "display: grid;"
      , "grid-template-columns: repeat(" ++ toString cfg.columns ++ ", 1fr);"
      , "grid-template-rows: repeat(" ++ toString cfg.rows ++ ", 1fr);"
      , "gap: " ++ quarterRem cfg.rowGap ++ "rem;" ] ++ "\n\x7d\n" ++ tl
      = specContainerRule cfg ++ "\n" ++ tl := by
  apply String.ext
  simp only [specContainerRule, joinSep, List.foldl, String.data_append, List.append_assoc]
  rfl

theorem mapWithIndex_map (f : Nat → β → γ) (g : α → β) (n : Nat) (l : List α) :
    mapWithIndex f n (l.map g) = mapWithIndex (fun i a => f i (g a)) n l := by
  induction l generalizing n with
  | nil => rfl
  | cons a rest ih => simp [mapWithIndex, ih]

/-! ### Claims -/

/-- Claim C1: for every configuration and registry the primary-syntax parent
line is the class list grid grid-cols-C grid-rows-R gap-G with G the column
gap (the output does not depend on the row gap), and the output wraps exactly
one child line per committed area, in registry insertion order, each reading
row-start, row-span, col-start, col-span, the stored color token and the fixed
decorations; in the concrete scenario of the spec (default configuration, one
drag from cell (1,1) to cell (2,2)) the parent and child lines are the quoted
strings. -/
theorem tailwind_output_format (s : AppState) :
    generateTailwindCode s
      = "<div class=\"" ++ specPrimaryParentLine s.gridConfig ++ "\">\n"
        ++ joinSep "\n" (s.gridAreas.map
            (fun a => "  <div class=\"" ++ specPrimaryChildLine a ++ "\"></div>"))
        ++ "\n</div>"
    ∧ (∀ x : Int,
        generateTailwindCode { s with gridConfig := { s.gridConfig with rowGap := x } }
          = generateTailwindCode s)
    ∧ generateTailwindCode
        (runEvents [Event.mouseDown 1 1, Event.mouseEnter 2 2, Event.mouseUp 0] initialState)
      = "<div class=\"grid grid-cols-4 grid-rows-3 gap-4\">\n  <div class=\"row-start-1 row-span-2 col-start-1 col-span-2 bg-gradient-to-br from-blue-500 to-blue-600 rounded-xl shadow-lg\"></div>\n</div>" := by
  refine ⟨?_, ?_, ?_⟩
  · simp only [generateTailwindCode, parentClasses_eq, childClasses_eq]
  · intro x
    simp [generateTailwindCode]
  · rfl

/-- Claim C2: committing an active gesture appends the min/max-normalized
rectangle with exclusive end bounds, the result is independent of drag
direction, and the concrete drag from (3,1) to (1,1) commits
rowStart=1, rowEnd=4, colStart=1, colEnd=2. -/
theorem commit_normalized_rectangle (s : AppState) (st cur : Cell) (now : Nat)
    (hd : s.isDragging = true) (hs : s.startCell = some st) (hc : s.currentCell = some cur) :
    (handleMouseUp now s).gridAreas
      = s.gridAreas ++
        [ { id := "area-" ++ toString now
          , rowStart := min st.row cur.row
          , rowEnd := max st.row cur.row + 1
          , colStart := min st.col cur.col
          , colEnd := max st.col cur.col + 1
          , color := AREA_COLORS.getD (s.gridAreas.length % AREA_COLORS.length) "" } ]
    ∧ (handleMouseUp now { s with startCell := some cur, currentCell := some st }).gridAreas
        = (handleMouseUp now s).gridAreas
    ∧ (runEvents [Event.mouseDown 3 1, Event.mouseEnter 1 1, Event.mouseUp 0] initialState).gridAreas.map
        (fun a => (a.rowStart, a.rowEnd, a.colStart, a.colEnd)) = [(1, 4, 1, 2)] := by
  refine ⟨?_, ?_, ?_⟩
  · simp [handleMouseUp, hd, hs, hc]
  · simp [handleMouseUp, hd, hs, hc, min_comm, max_comm]
  · rfl

/-- Claim C2 witness: the drag from cell (3,1) released at the start commits
one area computed by the normalization rule. -/
theorem commit_normalized_rectangle_witness :
    (handleMouseUp 5 (handleMouseDown 3 1 initialState)).gridAreas.length = 1 := by
  have h := commit_normalized_rectangle (handleMouseDown 3 1 initialState)
    { row := 3, col := 1 } { row := 3, col := 1 } 5 (by decide) (by decide) (by decide)
  rw [h.1]
  simp [handleMouseDown, initialState]

/-- Claim C3 counterexample: the root element wires onMouseLeave to the
release handler, so a pointer-leave during an active gesture changes the
area registry (it commits), contradicting the claim that the registry is
unchanged by the pointer-leave handler. -/
theorem mouseLeave_commits_area_cex :
    (stepEvent (Event.mouseLeave 0) (runEvents [Event.mouseDown 1 1] initialState)).gridAreas
      ≠ (runEvents [Event.mouseDown 1 1] initialState).gridAreas := by
  decide

/-- Claim C3 amended: the pointer-leave handler is the release handler
itself: it clears the gesture state exactly as a normal release, and during
an active gesture with both cells set it also commits the selection, growing
the registry by one area instead of leaving it unchanged. -/
theorem mouseLeave_behaves_as_release (s : AppState) (now : Nat) (st cur : Cell)
    (hd : s.isDragging = true) (hs : s.startCell = some st) (hc : s.currentCell = some cur) :
    stepEvent (Event.mouseLeave now) s = handleMouseUp now s
    ∧ (stepEvent (Event.mouseLeave now) s).isDragging = false
    ∧ (stepEvent (Event.mouseLeave now) s).startCell = none
    ∧ (stepEvent (Event.mouseLeave now) s).currentCell = none
    ∧ (stepEvent (Event.mouseLeave now) s).gridAreas.length = s.gridAreas.length + 1 := by
  refine ⟨rfl, ?_, ?_, ?_, ?_⟩ <;> simp [stepEvent, handleMouseUp, hd, hs, hc]

/-- Claim C3 amended witness: leaving the canvas right after pressing cell
(2,2) commits one area. -/
theorem mouseLeave_behaves_as_release_witness :
    (stepEvent (Event.mouseLeave 7) (handleMouseDown 2 2 initialState)).gridAreas.length = 1 := by
  have h := mouseLeave_behaves_as_release (handleMouseDown 2 2 initialState) 7
    { row := 2, col := 2 } { row := 2, col := 2 } (by decide) (by decide) (by decide)
  simpa [handleMouseDown, initialState] using h.2.2.2.2

/-- Claim C4: the secondary-syntax stylesheet is the container rule (whose
gap is rowGap * 0.25 rem; the column gap is not read at all) followed by one
rule per area named by its 1-indexed registry position with the grid-row and
grid-column line ranges, the gradient at each position taken from the
secondary palette at position mod 8, independent of the stored color token
of the areas. -/
theorem css_output_format (s : AppState) :
    (generateCSSCode s).css
      = specContainerRule s.gridConfig ++ "\n"
        ++ joinSep "\n" (mapWithIndex specAreaRule 0 s.gridAreas)
    ∧ (∀ x : Int,
        generateCSSCode { s with gridConfig := { s.gridConfig with columnGap := x } }
          = generateCSSCode s)
    ∧ (∀ f : GridArea → String,
        generateCSSCode { s with gridAreas := s.gridAreas.map (fun a => { a with color := f a }) }
          = generateCSSCode s) := by
  refine ⟨?_, ?_, ?_⟩
  · simp only [generateCSSCode]
    exact containerCss_eq s.gridConfig _
  · intro x
    simp [generateCSSCode]
  · intro f
    simp [generateCSSCode, mapWithIndex_map]

theorem commitGesture_areas (sr sc cr cc : Int) (now : Nat) (s : AppState) :
    (commitGesture sr sc cr cc now s).gridAreas
      = s.gridAreas ++
        [ { id := "area-" ++ toString now
          , rowStart := min sr cr
          , rowEnd := max sr cr + 1
          , colStart := min sc cc
          , colEnd := max sc cc + 1
          , color := AREA_COLORS.getD (s.gridAreas.length % AREA_COLORS.length) "" } ] := by
  simp [commitGesture, handleMouseDown, handleMouseEnter, handleMouseUp]

theorem commitGesture_colorInv (sr sc cr cc : Int) (now : Nat) (s : AppState)
    (h : colorInv s) : colorInv (commitGesture sr sc cr cc now s) := by
  intro N a ha
  rcases Nat.lt_trichotomy N s.gridAreas.length with hlt | heq | hgt
  · rw [commitGesture_areas, List.getElem?_append_left hlt] at ha
    exact h N a ha
  · rw [commitGesture_areas, heq, List.getElem?_concat_length] at ha
    cases ha
    rw [heq]
  · have hbound : N < (commitGesture sr sc cr cc now s).gridAreas.length := by
      by_contra hge
      rw [List.getElem?_eq_none (Nat.le_of_not_lt hge)] at ha
      cases ha
    rw [commitGesture_areas] at hbound
    simp at hbound
    omega

theorem runCommits_colorInv (gs : List (Cell × Cell × Nat)) (s : AppState)
    (h : colorInv s) : colorInv (runCommits gs s) := by
  induction gs generalizing s with
  | nil => exact h
  | cons g rest ih =>
      exact ih _ (commitGesture_colorInv g.1.row g.1.col g.2.1.row g.2.1.col g.2.2 s h)

/-- Claim C5: over any sequence of drag-commit gestures from the initial
state, the area at registry position N carries the preview palette entry at
N mod 8; the area at position 8 (the 9th) carries the same color as the one
at position 0 (the 1st). -/
theorem color_cycling (gs : List (Cell × Cell × Nat)) (N : Nat) (a : GridArea)
    (h : (runCommits gs initialState).gridAreas[N]? = some a) :
    a.color = AREA_COLORS.getD (N % AREA_COLORS.length) ""
    ∧ (∀ b c : GridArea, (runCommits gs initialState).gridAreas[8]? = some b →
        (runCommits gs initialState).gridAreas[0]? = some c → b.color = c.color) := by
  have hinv : colorInv (runCommits gs initialState) := by
    apply runCommits_colorInv
    intro N a ha
    simp [initialState] at ha
  refine ⟨hinv N a h, fun b c hb hc => ?_⟩
  rw [hinv 8 b hb, hinv 0 c hc]
  decide

/-- Claim C5 witness: after nine identical single-cell commits, the area at
position 8 exists and carries the palette entry at 8 mod 8, the first
palette color. -/
theorem color_cycling_witness :
    (runCommits (List.replicate 9 (({ row := 1, col := 1 } : Cell), ({ row := 1, col := 1 } : Cell), (0 : Nat)))
      initialState).gridAreas[8]?
      = some { id := "area-0", rowStart := 1, rowEnd := 2, colStart := 1, colEnd := 2
             , color := "bg-gradient-to-br from-blue-500 to-blue-600" }
    ∧ "bg-gradient-to-br from-blue-500 to-blue-600"
        = AREA_COLORS.getD (8 % AREA_COLORS.length) "" := by
  have h := color_cycling
    (List.replicate 9 (({ row := 1, col := 1 } : Cell), ({ row := 1, col := 1 } : Cell), (0 : Nat))) 8
    { id := "area-0", rowStart := 1, rowEnd := 2, colStart := 1, colEnd := 2
    , color := "bg-gradient-to-br from-blue-500 to-blue-600" } (by decide)
  exact ⟨by decide, h.1⟩

/-- Claim C6: both code generators read only the configuration and the area
registry: two states agreeing on those two fields produce identical output
strings, whatever the gesture or display state; repeated calls on one state
are therefore byte-identical. -/
theorem generators_deterministic (s t : AppState)
    (hc : s.gridConfig = t.gridConfig) (ha : s.gridAreas = t.gridAreas) :
    generateTailwindCode s = generateTailwindCode t
    ∧ generateCSSCode s = generateCSSCode t := by
  constructor
  · simp [generateTailwindCode, hc, ha]
  · simp [generateCSSCode, hc, ha]

/-- Claim C6 witness: changing only the gesture or display fields leaves
both outputs unchanged. -/
theorem generators_deterministic_witness :
    generateTailwindCode initialState
      = generateTailwindCode { initialState with isDragging := true }
    ∧ generateCSSCode initialState
      = generateCSSCode { initialState with showTailwind := false } := by
  exact ⟨(generators_deterministic initialState
            { initialState with isDragging := true } rfl rfl).1,
         (generators_deterministic initialState
            { initialState with showTailwind := false } rfl rfl).2⟩

/-- Claim C7 counterexample: the columns field handler stores parseInt(v)
unchanged whenever it is a nonzero number, so the out-of-range entry 99 is
stored as 99 — neither the safe default 1 nor a value in the range 1..12. -/
theorem input_coercion_cex :
    (setColumnsInput "99" initialState).gridConfig.columns = 99
    ∧ (setColumnsInput "99" initialState).gridConfig.columns ≠ 1
    ∧ ¬((setColumnsInput "99" initialState).gridConfig.columns ≤ 12) := by
  decide

/-- Claim C7 amended: a numeric field entry that parses to NaN is coerced to
the field default (1 for columns and rows, 0 for the gaps), and a parsed 0
is also coerced to the default because 0 is falsy in JS; any other parsed
integer is stored unchanged, even when it lies outside the documented range,
so the stored value is always a defined integer but not necessarily within
1..12 or 0..16. -/
theorem input_coercion_amended (v : String) (s : AppState) :
    ((parseIntJS v = none ∨ parseIntJS v = some 0) →
      (setColumnsInput v s).gridConfig.columns = 1
      ∧ (setRowsInput v s).gridConfig.rows = 1
      ∧ (setColumnGapInput v s).gridConfig.columnGap = 0
      ∧ (setRowGapInput v s).gridConfig.rowGap = 0)
    ∧ (∀ n : Int, parseIntJS v = some n → n ≠ 0 →
      (setColumnsInput v s).gridConfig.columns = n
      ∧ (setRowsInput v s).gridConfig.rows = n
      ∧ (setColumnGapInput v s).gridConfig.columnGap = n
      ∧ (setRowGapInput v s).gridConfig.rowGap = n) := by
  constructor
  · rintro (h | h) <;>
      simp [setColumnsInput, setRowsInput, setColumnGapInput, setRowGapInput, jsOrElse, h]
  · intro n hn hz
    simp [setColumnsInput, setRowsInput, setColumnGapInput, setRowGapInput, jsOrElse, hn, hz]

/-- Claim C7 amended witness: a non-numeric entry yields the default while
the out-of-range entry 99 is stored unchanged. -/
theorem input_coercion_amended_witness :
    (setColumnsInput "abc" initialState).gridConfig.columns = 1
    ∧ (setColumnsInput "99" initialState).gridConfig.columns = 99 := by
  refine ⟨((input_coercion_amended "abc" initialState).1 (Or.inl (by decide))).1, ?_⟩
  exact ((input_coercion_amended "99" initialState).2 99 (by decide) (by decide)).1

/-- Claim C8: the release handler always clears the gesture state, and when
no gesture is active (not dragging, or either cell missing) it leaves the
area registry unchanged. -/
theorem release_clears_gesture (s : AppState) (now : Nat) :
    (handleMouseUp now s).isDragging = false
    ∧ (handleMouseUp now s).startCell = none
    ∧ (handleMouseUp now s).currentCell = none
    ∧ (s.isDragging = false ∨ s.startCell = none ∨ s.currentCell = none →
        (handleMouseUp now s).gridAreas = s.gridAreas) := by
  cases hd : s.isDragging <;> cases hs : s.startCell <;> cases hc : s.currentCell <;>
    simp [handleMouseUp, hd, hs, hc]

/-- Claim C8 witness: a stray release on the initial state clears the
gesture and leaves the empty registry untouched. -/
theorem release_clears_gesture_witness :
    (handleMouseUp 0 initialState).gridAreas = initialState.gridAreas
    ∧ (handleMouseUp 0 initialState).isDragging = false := by
  have h := release_clears_gesture initialState 0
  exact ⟨h.2.2.2 (Or.inl rfl), h.1⟩

theorem handleMouseUp_areaInv (now : Nat) (s : AppState) (h : areaInv s) :
    areaInv (handleMouseUp now s) := by
  cases hd : s.isDragging <;> cases hs : s.startCell <;> cases hc : s.currentCell <;>
    intro a ha <;> simp [handleMouseUp, hd, hs, hc] at ha
  case false.none.none | false.none.some | false.some.none | false.some.some
     | true.none.none | true.none.some | true.some.none =>
    exact h a ha
  case true.some.some st cur =>
    rcases ha with ha | ha
    · exact h a ha
    · subst ha
      constructor
      · exact lt_of_le_of_lt min_le_max (lt_add_one _)
      · exact lt_of_le_of_lt min_le_max (lt_add_one _)

theorem stepEvent_areaInv (e : Event) (s : AppState) (h : areaInv s) :
    areaInv (stepEvent e s) := by
  cases e with
  | mouseDown row col => exact fun a ha => h a ha
  | mouseEnter row col =>
      intro a ha
      by_cases hd : s.isDragging <;> simp [stepEvent, handleMouseEnter, hd] at ha <;> exact h a ha
  | mouseUp now => exact handleMouseUp_areaInv now s h
  | mouseLeave now => exact handleMouseUp_areaInv now s h
  | reset => intro a ha; simp [stepEvent, resetGridAreas] at ha
  | setColumns v => exact fun a ha => h a ha
  | setRows v => exact fun a ha => h a ha
  | setColumnGap v => exact fun a ha => h a ha
  | setRowGap v => exact fun a ha => h a ha
  | selectSyntax v => exact fun a ha => h a ha

theorem runEvents_areaInv (evs : List Event) (s : AppState) (h : areaInv s) :
    areaInv (runEvents evs s) := by
  induction evs generalizing s with
  | nil => exact h
  | cons e rest ih => exact ih _ (stepEvent_areaInv e s h)

/-- Claim C9: after any sequence of user events from the initial state every
registered area satisfies rowStart < rowEnd and colStart < colEnd, and a
click released on its start cell commits exactly the 1-by-1 area with
rowEnd = rowStart + 1 and colEnd = colStart + 1. -/
theorem area_min_size_invariant (evs : List Event) :
    (∀ a ∈ (runEvents evs initialState).gridAreas,
        a.rowStart < a.rowEnd ∧ a.colStart < a.colEnd)
    ∧ (∀ (r c : Int) (now : Nat) (t : AppState),
        (handleMouseUp now (handleMouseDown r c t)).gridAreas
          = t.gridAreas ++
            [ { id := "area-" ++ toString now
              , rowStart := r, rowEnd := r + 1, colStart := c, colEnd := c + 1
              , color := AREA_COLORS.getD (t.gridAreas.length % AREA_COLORS.length) "" } ]) := by
  constructor
  · exact runEvents_areaInv evs initialState (by intro a ha; simp [initialState] at ha)
  · intro r c now t
    simp [handleMouseUp, handleMouseDown]

/-- Claim C9 witness: the single area committed by a drag from (1,1) to
(2,2) from the initial state is in the registry and has positive extent. -/
theorem area_min_size_invariant_witness :
    ({ id := "area-0", rowStart := 1, rowEnd := 3, colStart := 1, colEnd := 3
     , color := "bg-gradient-to-br from-blue-500 to-blue-600" } : GridArea)
      ∈ (runEvents [Event.mouseDown 1 1, Event.mouseEnter 2 2, Event.mouseUp 0] initialState).gridAreas
    ∧ ((1 : Int) < 3 ∧ (1 : Int) < 3) := by
  have hm : ({ id := "area-0", rowStart := 1, rowEnd := 3, colStart := 1, colEnd := 3,
               color := "bg-gradient-to-br from-blue-500 to-blue-600" } : GridArea)
      ∈ (runEvents [Event.mouseDown 1 1, Event.mouseEnter 2 2, Event.mouseUp 0] initialState).gridAreas := by
    decide
  exact ⟨hm, (area_min_size_invariant [Event.mouseDown 1 1, Event.mouseEnter 2 2, Event.mouseUp 0]).1 _ hm⟩

/-- Claim C10: during an active gesture a cell is previewed by the inclusive
selection rectangle exactly when the half-open rectangle of the area that a
release would commit covers it: the release appends the normalized area, and
membership in the preview equals the half-open bound conditions of that
area. -/
theorem preview_matches_commit (s : AppState) (st cur : Cell) (now : Nat) (row col : Int)
    (hd : s.isDragging = true) (hs : s.startCell = some st) (hc : s.currentCell = some cur) :
    (handleMouseUp now s).gridAreas
      = s.gridAreas ++
        [ { id := "area-" ++ toString now
          , rowStart := min st.row cur.row
          , rowEnd := max st.row cur.row + 1
          , colStart := min st.col cur.col
          , colEnd := max st.col cur.col + 1
          , color := AREA_COLORS.getD (s.gridAreas.length % AREA_COLORS.length) "" } ]
    ∧ (isInSelection s row col = true ↔
        (min st.row cur.row ≤ row ∧ row < max st.row cur.row + 1
          ∧ min st.col cur.col ≤ col ∧ col < max st.col cur.col + 1)) := by
  constructor
  · simp [handleMouseUp, hd, hs, hc]
  · simp only [isInSelection, hd, hs, hc]
    constructor
    · intro h
      have h' := of_decide_eq_true h
      omega
    · intro h
      apply decide_eq_true
      omega

/-- Claim C10 witness: during a drag from (1,1) to (3,3), cell (2,2) is
previewed because the area a release would commit covers it. -/
theorem preview_matches_commit_witness :
    isInSelection (handleMouseEnter 3 3 (handleMouseDown 1 1 initialState)) 2 2 = true := by
  have h := preview_matches_commit (handleMouseEnter 3 3 (handleMouseDown 1 1 initialState))
    { row := 1, col := 1 } { row := 3, col := 3 } 0 2 2 (by decide) (by decide) (by decide)
  exact h.2.mpr (by decide)
